import Mathlib

/-!
Verification of the session-validity / pagination / field-normalization core of
the TM-RND-ASSESSMENT application (an Angular client).

The embedding below is a shallow model of the TypeScript source:

* JavaScript values that flow through the formatting helpers are modelled by
  the inductive type `JsVal` (undefined, null, boolean, number, string).
  Numbers are modelled as integers: every numeric literal appearing in the
  relevant code paths is integral, and the arithmetic used (`Math.floor(x/60)`,
  `x % 60`, `Math.ceil(n/p)`) is exact on integers.
* Instants are integers counting milliseconds since the Unix epoch, as in
  `Date.now()` / `Date.prototype.getTime`.
* JavaScript `Date` string parsing and `Date.prototype.toLocaleString`
  rendering are environment-defined; they are abstracted as an explicit
  `parse : String → Option Int` argument (`none` models an Invalid Date)
  and a `render : Int → String` argument.  Numeric `Date` construction is
  exact: `new Date(ms)` is valid iff `|ms| ≤ 8640000000000000`.
* `localStorage` values are `Option String` (`none` models a missing key).
-/

/-- A JavaScript value as it flows through the detail-component helpers.
Numbers are modelled as integers (see the module comment). -/
inductive JsVal where
  | undef : JsVal
  | null : JsVal
  | bool : Bool → JsVal
  | num : Int → JsVal
  | str : String → JsVal
deriving DecidableEq

/-- JavaScript truthiness test on `JsVal`: `undefined`, `null`, `false`, `0`
and `""` are falsy (`!v` in the source is `jsFalsy v`). -/
def jsFalsy : JsVal → Bool
  | .undef => true
  | .null => true
  | .bool b => !b
  | .num n => n = 0
  | .str s => s = ""

/-- JavaScript `String(v)` on the modelled values. -/
def jsToString : JsVal → String
  | .undef => "undefined"
  | .null => "null"
  | .bool b => if b then "true" else "false"
  | .num n => toString n
  | .str s => s

/-- Truthiness of an optional `localStorage` string: `!x` in the source is
true for a missing key and for the empty string. -/
def strFalsy : Option String → Bool
  | none => true
  | some s => s = ""

/-- Embedding of `AuthService.isAuthenticated` (src/app/services/auth.service.ts,
lines 210-253).  `parse` abstracts `new Date(expiry).getTime()` on strings
(`none` models an Invalid Date); `nowMs` is the current instant in
milliseconds.  The source builds `expiryDate` and finally returns
`expiryDate > now`; the comparison is inlined into each branch here. -/
def isAuthenticated (parse : String → Option Int) (token expiry : Option String)
    (nowMs : Int) : Bool :=
  -- if (!token || !expiry) return false;
  if strFalsy token || strFalsy expiry then false
  else
    match expiry with
    | none => false
    | some e =>
      if e = "1hr" then
        -- expiryDate = new Date(Date.now() + 60 * 60 * 1000); return expiryDate > now;
        decide (nowMs + 60 * 60 * 1000 > nowMs)
      else
        -- expiryDate = new Date(expiry); if (isNaN(...)) return false; return expiryDate > now;
        match parse e with
        | none => false
        | some expiryMs => decide (expiryMs > nowMs)

/-- The ascending run `[lo, lo+1, ..., lo+n-1]` of `n` consecutive integers. -/
def intRangeAux (lo : Int) : Nat → List Int
  | 0 => []
  | n + 1 => lo :: intRangeAux (lo + 1) n

/-- The ascending run `[lo, ..., hi]`, empty when `hi < lo`: the loop
`for (let i = lo; i <= hi; i++) pages.push(i)`. -/
def intRange (lo hi : Int) : List Int :=
  intRangeAux lo (hi + 1 - lo).toNat

/-- Embedding of `DetailComponent.getPageNumbers` (src/app/detail/detail.component.ts,
lines 374-391), with `maxVisiblePages = 5` as in the source, so
`Math.floor(maxVisiblePages / 2)` is the literal division `5 / 2 = 2`. -/
def getPageNumbers (totalPages currentPage : Int) : List Int :=
  let maxVisiblePages : Int := 5
  let startPage := max 1 (currentPage - maxVisiblePages / 2)
  let endPage := min totalPages (startPage + maxVisiblePages - 1)
  -- Adjust start page if we're near the end
  let startPage := if endPage - startPage + 1 < maxVisiblePages then
      max 1 (endPage - maxVisiblePages + 1)
    else startPage
  intRange startPage endPage

/-- The pagination-relevant state of `DetailComponent`
(src/app/detail/detail.component.ts, lines 54-57). -/
structure ListingState where
  currentPage : Int
  pageSize : Int
  totalItems : Int
  totalPages : Int
deriving DecidableEq

/-- Initial field values of `DetailComponent`: `currentPage = 1`,
`pageSize = 5`, `totalItems = 0`, `totalPages = 0`. -/
def initialState : ListingState :=
  { currentPage := 1, pageSize := 5, totalItems := 0, totalPages := 0 }

/-- Embedding of `DetailComponent.goToPage` (lines 313-322): the guard is
`page >= 1 && page <= this.totalPages && page !== this.currentPage`; on
success only `currentPage` changes (the triggered reload is a separate
transition, `applyLoadResponse`). -/
def goToPage (page : Int) (s : ListingState) : ListingState :=
  if 1 ≤ page ∧ page ≤ s.totalPages ∧ page ≠ s.currentPage then
    { s with currentPage := page }
  else s

/-- Embedding of `DetailComponent.goToPreviousPage` (lines 327-331). -/
def goToPreviousPage (s : ListingState) : ListingState :=
  if 1 < s.currentPage then goToPage (s.currentPage - 1) s else s

/-- Embedding of `DetailComponent.goToNextPage` (lines 336-340). -/
def goToNextPage (s : ListingState) : ListingState :=
  if s.currentPage < s.totalPages then goToPage (s.currentPage + 1) s else s

/-- Embedding of `DetailComponent.goToFirstPage` (lines 345-347). -/
def goToFirstPage (s : ListingState) : ListingState :=
  goToPage 1 s

/-- Embedding of `DetailComponent.goToLastPage` (lines 352-354). -/
def goToLastPage (s : ListingState) : ListingState :=
  goToPage s.totalPages s

/-- Embedding of `DetailComponent.onDateRangeChange` (lines 295-304): resets
`currentPage` to 1 (the triggered reload is a separate transition). -/
def onDateRangeChange (s : ListingState) : ListingState :=
  { s with currentPage := 1 }

/-- Integer ceiling division: equals `Math.ceil(a / b)` whenever `0 ≤ a` and
`0 < b` (the only way it is applied on reachable states). -/
def ceilDiv (a b : Int) : Int :=
  (a + b - 1) / b

/-- Embedding of the success handler of `DetailComponent.loadAlerts`
(lines 210-244) restricted to the pagination state: the response yields a
total item count `total` (an array response contributes its length, a
`data` response contributes `response.total || response.data.length || 0`;
per the listing-collaborator interface this count is a non-negative
integer), then `totalPages = Math.ceil(totalItems / pageSize)`. -/
def applyLoadResponse (total : Int) (s : ListingState) : ListingState :=
  { s with totalItems := total, totalPages := ceilDiv total s.pageSize }

/-- Embedding of `DetailComponent.getEndItemNumber` (lines 523-525). -/
def getEndItemNumber (s : ListingState) : Int :=
  min (s.currentPage * s.pageSize) s.totalItems

/-- One user- or network-driven transition of the pagination state: the
navigation operations, a date-range change, and the arrival of an
alert-load response carrying a non-negative total. -/
inductive ListingStep : ListingState → ListingState → Prop where
  | goTo (page : Int) (s : ListingState) : ListingStep s (goToPage page s)
  | prev (s : ListingState) : ListingStep s (goToPreviousPage s)
  | next (s : ListingState) : ListingStep s (goToNextPage s)
  | first (s : ListingState) : ListingStep s (goToFirstPage s)
  | last (s : ListingState) : ListingStep s (goToLastPage s)
  | dateRange (s : ListingState) : ListingStep s (onDateRangeChange s)
  | load (total : Int) (htotal : 0 ≤ total) (s : ListingState) :
      ListingStep s (applyLoadResponse total s)

/-- States of `DetailComponent` reachable from the initial field values by
the paged-listing operations. -/
inductive ListingReachable : ListingState → Prop where
  | init : ListingReachable initialState
  | step {s t : ListingState} : ListingReachable s → ListingStep s t →
      ListingReachable t

/-- The candidate physical key names for each logical field, in source order:
the `fieldMappings` table of `DetailComponent.getAlertField` (lines 429-434). -/
def fieldMappings (fieldType : String) : List String :=
  if fieldType = "datetime" then
    ["dateTime", "dateTimeString", "datetime", "date", "timestamp", "time",
     "created_at", "createdAt", "alert_time", "alertTime"]
  else if fieldType = "remark" then
    ["remark", "description", "message", "note", "comment", "details", "text"]
  else if fieldType = "status" then
    ["status", "state", "alert_status", "alertStatus", "type"]
  else if fieldType = "duration" then
    ["duration", "durationString", "duration_ms", "duration_seconds",
     "durationSeconds", "durationMs", "time_duration", "timeDuration"]
  else []

/-- The presence test of `getAlertField`:
`alert[field] !== undefined && alert[field] !== null && alert[field] !== ''`. -/
def jsPresent (v : JsVal) : Bool :=
  v ≠ JsVal.undef ∧ v ≠ JsVal.null ∧ v ≠ JsVal.str ""

/-- The candidate loop of `getAlertField` (lines 438-443): return the first
present candidate value, else `null`. -/
def lookupFirstField (alert : String → JsVal) : List String → JsVal
  | [] => JsVal.null
  | f :: rest =>
    if jsPresent (alert f) then alert f else lookupFirstField alert rest

/-- Embedding of `DetailComponent.getAlertField` (lines 428-444).  A record
is modelled as a total map from keys to `JsVal` (a missing key maps to
`JsVal.undef`, as property access on a JS object yields `undefined`). -/
def getAlertField (alert : String → JsVal) (fieldType : String) : JsVal :=
  lookupFirstField alert (fieldMappings fieldType)

/-- Embedding of `DetailComponent.formatDuration` (lines 401-417).
`Math.floor(duration / 60)` is `Int.fdiv` and the JS remainder
`duration % 60` (sign of the dividend) is `Int.tmod`. -/
def formatDuration (duration : JsVal) : String :=
  if jsFalsy duration then "N/A"
  else
    match duration with
    | .str s => s
    | .num n =>
      toString (Int.fdiv n 60) ++ " hrs " ++ toString (Int.tmod n 60) ++ " mins"
    | v => jsToString v

/-- Largest valid millisecond offset of a JavaScript `Date`
(`8.64e15`; `new Date(ms)` is an Invalid Date beyond it). -/
def maxJsDateMs : Int := 8640000000000000

/-- Embedding of `DetailComponent.formatDateTime` (lines 454-514).
`parse` abstracts `new Date(string).getTime()` together with the
`isNaN(date.getTime())` validity check (`none` for an Invalid Date);
`render` abstracts the fixed 24-hour `toLocaleString` call.  The three
string sub-branches of the source (`includes('T')`, `includes('-')`,
other) all evaluate `new Date(datetime)` and so collapse into one.  A
numeric input is epoch milliseconds when `> 1000000000000`, else epoch
seconds; the resulting `Date` is valid iff the offset stays within
`maxJsDateMs`.  `new Date(true)` is the valid instant `1`; the remaining
non-falsy case is unreachable in this value universe.  `String(datetime)`
is returned whenever the date is invalid; `new Date` and `toLocaleString`
do not throw, so the `catch` branch is dead. -/
def formatDateTime (parse : String → Option Int) (render : Int → String)
    (datetime : JsVal) : String :=
  if jsFalsy datetime then "N/A"
  else
    match datetime with
    | .str s =>
      match parse s with
      | some t => render t
      | none => jsToString (.str s)
    | .num n =>
      let ms := if 1000000000000 < n then n else n * 1000
      if ms.natAbs ≤ maxJsDateMs.natAbs then render ms else jsToString (.num n)
    | .bool true => render 1
    | v => jsToString v

/-- Modelled from the spec (§4.1, as amended by the analysis of claim C1):
the session-validity contract `isValid(token, expiry, now)`, where "absent"
covers both a missing credential and the empty string.  This definition
follows the spec wording, to be compared with `isAuthenticated`. -/
def isValidAmended (parse : String → Option Int) (token expiry : Option String)
    (now : Int) : Bool :=
  match token, expiry with
  | some t, some e =>
    if t = "" || e = "" then false
    else if e = "1hr" then true
    else
      match parse e with
      | none => false
      | some i => decide (i > now)
  | _, _ => false

/-- Modelled from claim C1 exactly as stated: "absent" means only a missing
(null) credential, so a present-but-empty token falls through to the later
cases.  Used to exhibit the counterexample to C1. -/
def isValidClaimed (parse : String → Option Int) (token expiry : Option String)
    (now : Int) : Bool :=
  match token, expiry with
  | some _, some e =>
    if e = "1hr" then true
    else
      match parse e with
      | none => false
      | some i => decide (i > now)
  | _, _ => false

-- ===== Helper lemmas =====

theorem length_intRangeAux (n : Nat) : ∀ lo : Int, (intRangeAux lo n).length = n := by
  induction n with
  | zero => intro lo; rfl
  | succ m ih => intro lo; simp [intRangeAux, ih]

theorem mem_intRangeAux {p : Int} (n : Nat) :
    ∀ lo : Int, p ∈ intRangeAux lo n ↔ lo ≤ p ∧ p < lo + n := by
  induction n with
  | zero => intro lo; simp [intRangeAux]
  | succ m ih =>
    intro lo
    simp [intRangeAux, ih]
    omega

theorem chain_intRangeAux (n : Nat) :
    ∀ lo : Int, List.Chain' (fun a b => b = a + 1) (intRangeAux lo n) := by
  induction n with
  | zero => intro lo; simp [intRangeAux]
  | succ m ih =>
    intro lo
    cases m with
    | zero => simp [intRangeAux]
    | succ k =>
      have h2 := ih (lo + 1)
      simp only [intRangeAux] at h2 ⊢
      exact List.Chain'.cons rfl h2

theorem length_intRange (lo hi : Int) :
    (intRange lo hi).length = (hi + 1 - lo).toNat :=
  length_intRangeAux _ _

theorem mem_intRange {p lo hi : Int} : p ∈ intRange lo hi ↔ lo ≤ p ∧ p ≤ hi := by
  rw [intRange, mem_intRangeAux]
  omega

theorem chain_intRange (lo hi : Int) :
    List.Chain' (fun a b => b = a + 1) (intRange lo hi) :=
  chain_intRangeAux _ _

theorem goToPage_noop {page : Int} {s : ListingState}
    (h : page < 1 ∨ s.totalPages < page ∨ page = s.currentPage) :
    goToPage page s = s := by
  unfold goToPage
  rw [if_neg]
  rintro ⟨h1, h2, h3⟩
  rcases h with h | h | h <;> omega

theorem lookupFirstField_eq_find (alert : String → JsVal) (l : List String) :
    lookupFirstField alert l =
      match l.find? (fun f => jsPresent (alert f)) with
      | some f => alert f
      | none => JsVal.null := by
  induction l with
  | nil => rfl
  | cons f rest ih =>
    by_cases h : jsPresent (alert f)
    · simp [lookupFirstField, List.find?_cons, h]
    · simp [lookupFirstField, List.find?_cons, h, ih]

-- ===== Claim theorems =====

/-- C1 (amended): for every stored token, stored expiry and check time,
`isAuthenticated` returns false when the token or the expiry is absent
*or the empty string*; returns true when the expiry is the literal `"1hr"`,
regardless of how long ago the token was issued; returns false when the
expiry is neither `"1hr"` nor a parseable timestamp; and otherwise returns
true exactly when the parsed expiry instant is strictly after now. -/
theorem isAuthenticated_eq_isValidAmended (parse : String → Option Int)
    (token expiry : Option String) (now : Int) :
    isAuthenticated parse token expiry now = isValidAmended parse token expiry now := by
  cases token with
  | none => cases expiry <;> rfl
  | some t =>
    cases expiry with
    | none => simp [isAuthenticated, isValidAmended, strFalsy]
    | some e =>
      simp only [isAuthenticated, isValidAmended, strFalsy]
      by_cases ht : t = ""
      · simp [ht]
      · by_cases he : e = ""
        · simp [ht, he]
        · by_cases h1 : e = "1hr"
          · simp [ht, he, h1]
          · simp [ht, he, h1]

/-- C1 counterexample: with a present-but-empty stored token and the stored
expiry `"1hr"`, the code returns false, while the claim as stated (the token
is not absent, the expiry is the literal `"1hr"`) requires true. -/
theorem isAuthenticated_empty_token_cex :
    isAuthenticated (fun _ => none) (some "") (some "1hr") 0 = false ∧
    isValidClaimed (fun _ => none) (some "") (some "1hr") 0 = true := by
  exact ⟨rfl, rfl⟩

/-- C3: for every target page and every listing state, `goToPage target`
leaves the state unchanged (a silent no-op, never an error) when
`target < 1`, `target > totalPages` or `target = currentPage`, and sets
`currentPage` to `target` (leaving the other fields unchanged) in every
other case. -/
theorem goToPage_cases (page : Int) (s : ListingState) :
    ((page < 1 ∨ s.totalPages < page ∨ page = s.currentPage) → goToPage page s = s) ∧
    (1 ≤ page → page ≤ s.totalPages → page ≠ s.currentPage →
      (goToPage page s).currentPage = page ∧
      (goToPage page s).pageSize = s.pageSize ∧
      (goToPage page s).totalItems = s.totalItems ∧
      (goToPage page s).totalPages = s.totalPages) := by
  constructor
  · exact goToPage_noop
  · intro h1 h2 h3
    unfold goToPage
    rw [if_pos ⟨h1, h2, h3⟩]
    exact ⟨rfl, rfl, rfl, rfl⟩

/-- Witness for C3 at concrete inputs: navigating to page 0 from the initial
state is a no-op, and navigating to page 2 with five total pages lands on
page 2. -/
theorem goToPage_cases_witness :
    goToPage 0 initialState = initialState ∧
    (goToPage 2 { currentPage := 1, pageSize := 5, totalItems := 23,
                  totalPages := 5 }).currentPage = 2 :=
  ⟨(goToPage_cases 0 initialState).1 (Or.inl (by decide)),
   ((goToPage_cases 2 { currentPage := 1, pageSize := 5, totalItems := 23,
                        totalPages := 5 }).2 (by decide) (by decide) (by decide)).1⟩

/-- C5: for every record and every logical field, `getAlertField` returns
the value of the first candidate key, taken in the fixed documented order
(spelled out for `datetime`), whose value in the record is present
(not `undefined`), non-null, and not the empty string; it returns null when
no candidate matches — in particular `extract {status:"OK"} status = "OK"`,
`extract {state:"OK"} status = "OK"`, and `extract {} status = null`. -/
theorem getAlertField_spec :
    (∀ (alert : String → JsVal) (fieldType : String),
      getAlertField alert fieldType =
        match (fieldMappings fieldType).find? (fun f => jsPresent (alert f)) with
        | some f => alert f
        | none => JsVal.null) ∧
    fieldMappings "datetime" =
      ["dateTime", "dateTimeString", "datetime", "date", "timestamp", "time",
       "created_at", "createdAt", "alert_time", "alertTime"] ∧
    getAlertField (fun f => if f = "status" then .str "OK" else .undef) "status"
      = .str "OK" ∧
    getAlertField (fun f => if f = "state" then .str "OK" else .undef) "status"
      = .str "OK" ∧
    getAlertField (fun _ => .undef) "status" = JsVal.null :=
  ⟨fun alert fieldType => lookupFirstField_eq_find alert _,
   by decide, by decide, by decide, by decide⟩

/-- C6: `formatDuration` returns `"N/A"` on every falsy input (including the
number 0 and the empty string), returns a non-empty string unchanged,
renders a non-zero number `n` of minutes as
`"<floor(n/60)> hrs <n % 60> mins"` (with `%` the JS remainder), and
stringifies any other value; in particular `formatDuration 125 =
"2 hrs 5 mins"`, `formatDuration null = "N/A"`,
`formatDuration "3 hrs" = "3 hrs"`. -/
theorem formatDuration_spec :
    formatDuration JsVal.null = "N/A" ∧
    formatDuration JsVal.undef = "N/A" ∧
    (∀ b : Bool, formatDuration (.bool b) = if b then jsToString (.bool b) else "N/A") ∧
    (∀ s : String, formatDuration (.str s) = if s = "" then "N/A" else s) ∧
    (∀ n : Int, formatDuration (.num n) =
      if n = 0 then "N/A"
      else toString (Int.fdiv n 60) ++ " hrs " ++ toString (Int.tmod n 60) ++ " mins") ∧
    formatDuration (.num 125) = "2 hrs 5 mins" ∧
    formatDuration (.str "3 hrs") = "3 hrs" := by
  refine ⟨rfl, rfl, ?_, ?_, ?_, by decide, rfl⟩
  · intro b
    cases b <;> rfl
  · intro s
    by_cases h : s = "" <;> simp [formatDuration, jsFalsy, h]
  · intro n
    by_cases h : n = 0 <;> simp [formatDuration, jsFalsy, h]

/-- C10: `formatDateTime` returns the literal `"N/A"` on every falsy input —
null, undefined, the number 0, the empty string (and `false`) — before any
parsing or rendering is attempted: the result does not depend on the parse
or render behavior, so 0 is not rendered as the epoch timestamp and the
empty string is not returned unchanged. -/
theorem formatDateTime_falsy_guard :
    ∀ (parse : String → Option Int) (render : Int → String),
      formatDateTime parse render JsVal.null = "N/A" ∧
      formatDateTime parse render JsVal.undef = "N/A" ∧
      formatDateTime parse render (.num 0) = "N/A" ∧
      formatDateTime parse render (.str "") = "N/A" ∧
      formatDateTime parse render (.bool false) = "N/A" :=
  fun _ _ => ⟨rfl, rfl, rfl, rfl, rfl⟩

/-- C2: for every non-negative total page count and every current page,
the `getPageNumbers` window (maxVisible = 5) is a contiguous ascending run
of page numbers of length `min 5 total`, fully contained in `[1, total]`,
contains `current` whenever `1 ≤ current ≤ total`, and is empty when
`total = 0`. -/
theorem getPageNumbers_window_spec (total current : Int) (htotal : 0 ≤ total) :
    (getPageNumbers total current).length = (min 5 total).toNat ∧
    List.Chain' (fun a b => b = a + 1) (getPageNumbers total current) ∧
    (∀ p ∈ getPageNumbers total current, 1 ≤ p ∧ p ≤ total) ∧
    (1 ≤ current → current ≤ total → current ∈ getPageNumbers total current) ∧
    (total = 0 → getPageNumbers total current = []) := by
  refine ⟨?_, ?_, ?_, ?_, ?_⟩
  · simp only [getPageNumbers]
    rw [length_intRange]
    split_ifs <;> omega
  · simp only [getPageNumbers]
    exact chain_intRange _ _
  · simp only [getPageNumbers]
    intro p hp
    rw [mem_intRange] at hp
    split_ifs at hp <;> omega
  · intro h1 h2
    simp only [getPageNumbers]
    rw [mem_intRange]
    split_ifs <;> omega
  · intro h0
    subst h0
    simp only [getPageNumbers]
    rw [← List.length_eq_zero, length_intRange]
    split_ifs <;> omega

/-- Witness for C2 at the concrete input `total = 7`, `current = 4`: the
window has length `min 5 7 = 5` and contains page 4. -/
theorem getPageNumbers_window_spec_witness :
    (getPageNumbers 7 4).length = (min (5:Int) 7).toNat ∧
    (4:Int) ∈ getPageNumbers 7 4 :=
  ⟨(getPageNumbers_window_spec 7 4 (by decide)).1,
   (getPageNumbers_window_spec 7 4 (by decide)).2.2.2.1 (by decide) (by decide)⟩

/-- C7 (amended): for every input that is not falsy (the falsy inputs 0 and
`""` hit the `"N/A"` guard of C10 first), `formatDateTime` parses a string
input as a calendar timestamp and a numeric input as milliseconds-since-epoch
when it exceeds 1000000000000 and as seconds-since-epoch otherwise; whenever
the timestamp is invalid or parsing fails it returns the stringified original
input unchanged (so `formatDateTime "not-a-date" = "not-a-date"`), and on
success it renders the timestamp with the fixed 24-hour format `render`. -/
theorem formatDateTime_spec (parse : String → Option Int) (render : Int → String) :
    (∀ s : String, formatDateTime parse render (.str s) =
      if s = "" then "N/A"
      else
        match parse s with
        | some t => render t
        | none => s) ∧
    (∀ n : Int, formatDateTime parse render (.num n) =
      if n = 0 then "N/A"
      else
        let ms := if 1000000000000 < n then n else n * 1000
        if ms.natAbs ≤ 8640000000000000 then render ms else toString n) ∧
    (∀ render2 : Int → String,
      formatDateTime (fun _ => none) render2 (.str "not-a-date") = "not-a-date") := by
  refine ⟨?_, ?_, fun render2 => rfl⟩
  · intro s
    by_cases h : s = "" <;> simp [formatDateTime, jsFalsy, jsToString, h]
  · intro n
    by_cases h : n = 0 <;> simp [formatDateTime, jsFalsy, jsToString, maxJsDateMs, h]

/-- C7 counterexample: at the numeric input 0 the claimed pipeline
(0 is not above the millisecond threshold, so render 0 seconds = the epoch)
does not apply: the code returns `"N/A"`, which is neither the rendering of
the epoch instant nor the stringified original input `"0"`. -/
theorem formatDateTime_zero_cex :
    formatDateTime (fun _ => none) (fun t => "<" ++ toString t ++ ">") (.num 0) = "N/A" ∧
    "N/A" ≠ (fun t : Int => "<" ++ toString t ++ ">") (0 * 1000) ∧
    "N/A" ≠ jsToString (.num 0) :=
  ⟨rfl, by decide, by decide⟩

theorem inv_goToPage {s : ListingState}
    (h : 1 ≤ s.currentPage ∧ 0 ≤ s.totalItems ∧ 0 ≤ s.totalPages ∧ s.pageSize = 5)
    (page : Int) :
    1 ≤ (goToPage page s).currentPage ∧ 0 ≤ (goToPage page s).totalItems ∧
    0 ≤ (goToPage page s).totalPages ∧ (goToPage page s).pageSize = 5 := by
  unfold goToPage
  split_ifs with hc
  · exact ⟨hc.1, h.2.1, h.2.2.1, h.2.2.2⟩
  · exact h

theorem inv_listingStep {s t : ListingState}
    (h : 1 ≤ s.currentPage ∧ 0 ≤ s.totalItems ∧ 0 ≤ s.totalPages ∧ s.pageSize = 5)
    (hst : ListingStep s t) :
    1 ≤ t.currentPage ∧ 0 ≤ t.totalItems ∧ 0 ≤ t.totalPages ∧ t.pageSize = 5 := by
  cases hst with
  | goTo page _ => exact inv_goToPage h page
  | prev _ =>
    unfold goToPreviousPage
    split_ifs
    · exact inv_goToPage h _
    · exact h
  | next _ =>
    unfold goToNextPage
    split_ifs
    · exact inv_goToPage h _
    · exact h
  | first _ => exact inv_goToPage h 1
  | last _ => exact inv_goToPage h _
  | dateRange _ => exact ⟨le_refl 1, h.2.1, h.2.2.1, h.2.2.2⟩
  | load total htot _ =>
    refine ⟨h.1, htot, ?_, h.2.2.2⟩
    show (0:Int) ≤ ceilDiv total s.pageSize
    rw [ceilDiv, h.2.2.2]
    omega

/-- C4 (amended): in every state reachable by the paged-listing operations,
`currentPage` stays at least 1, `totalItems` and `totalPages` are never
negative, and `pageSize` stays 5.  The upper bound
`currentPage ≤ max totalPages 1` of the original claim does not hold in
general: an alert-load response can lower `totalPages` below the page the
user is on (see the counterexample). -/
theorem listing_reachable_invariant (s : ListingState) (h : ListingReachable s) :
    1 ≤ s.currentPage ∧ 0 ≤ s.totalItems ∧ 0 ≤ s.totalPages ∧ s.pageSize = 5 := by
  induction h with
  | init => exact ⟨le_refl 1, le_refl 0, le_refl 0, rfl⟩
  | step hr hstep ih => exact inv_listingStep ih hstep

/-- Witness for C4 (amended) at the initial state, which is reachable by the
empty sequence of operations. -/
theorem listing_reachable_invariant_witness :
    1 ≤ initialState.currentPage ∧ 0 ≤ initialState.totalItems ∧
    0 ≤ initialState.totalPages ∧ initialState.pageSize = 5 :=
  listing_reachable_invariant initialState ListingReachable.init

/-- C4 counterexample: the state with `currentPage = 5` but `totalPages = 1`
is reachable — load a total of 23 items (5 pages), navigate to page 5, then
receive a load response of only 3 items (1 page); `loadAlerts` never clamps
`currentPage`, so it ends outside `[1, max(totalPages, 1)] = [1, 1]`. -/
theorem listing_invariant_cex :
    ListingReachable { currentPage := 5, pageSize := 5, totalItems := 3, totalPages := 1 } ∧
    ¬ (({ currentPage := 5, pageSize := 5, totalItems := 3, totalPages := 1 } : ListingState).currentPage ≤
        max ({ currentPage := 5, pageSize := 5, totalItems := 3, totalPages := 1 } : ListingState).totalPages 1) := by
  constructor
  · -- The anonymous constructors below list the fields in declaration order:
    -- ⟨currentPage, pageSize, totalItems, totalPages⟩.
    have h1 : ListingReachable (applyLoadResponse 23 initialState) :=
      ListingReachable.step ListingReachable.init (ListingStep.load 23 (by decide) initialState)
    have e1 : applyLoadResponse 23 initialState = (⟨1, 5, 23, 5⟩ : ListingState) := by decide
    rw [e1] at h1
    have h2 := ListingReachable.step h1 (ListingStep.goTo 5 _)
    have e2 : goToPage 5 (⟨1, 5, 23, 5⟩ : ListingState) = (⟨5, 5, 23, 5⟩ : ListingState) := by
      decide
    rw [e2] at h2
    have h3 := ListingReachable.step h2 (ListingStep.load 3 (by decide) _)
    have e3 : applyLoadResponse 3 (⟨5, 5, 23, 5⟩ : ListingState) = (⟨5, 5, 3, 1⟩ : ListingState) := by
      decide
    rw [e3] at h3
    exact h3
  · decide

/-- C8: after a load response carrying a non-negative total `n` (with the
positive page size), `totalPages` is exactly the ceiling of
`totalItems / pageSize` — it is 0 when `n = 0`, and otherwise it is the
unique integer with `(totalPages - 1) * pageSize < n ≤ totalPages * pageSize`
— and `getEndItemNumber` is `min (currentPage * pageSize) totalItems`; in the
concrete scenario, 23 items at page size 5 give 5 pages and page 3 ends at
item 15. -/
theorem loadResponse_derived_values (s : ListingState) (n : Int)
    (hn : 0 ≤ n) (hp : 0 < s.pageSize) :
    (applyLoadResponse n s).totalItems = n ∧
    (n = 0 → (applyLoadResponse n s).totalPages = 0) ∧
    (n ≤ (applyLoadResponse n s).totalPages * s.pageSize) ∧
    (((applyLoadResponse n s).totalPages - 1) * s.pageSize < n) ∧
    (getEndItemNumber (applyLoadResponse n s) =
      min ((applyLoadResponse n s).currentPage * (applyLoadResponse n s).pageSize) n) ∧
    (applyLoadResponse 23 initialState).totalPages = 5 ∧
    getEndItemNumber (goToPage 3 (applyLoadResponse 23 initialState)) = 15 := by
  refine ⟨rfl, ?_, ?_, ?_, rfl, by decide, by decide⟩
  · intro h0
    subst h0
    show ceilDiv 0 s.pageSize = 0
    rw [ceilDiv]
    simp only [zero_add]
    exact Int.ediv_eq_zero_of_lt (by omega) (by omega)
  · show n ≤ ceilDiv n s.pageSize * s.pageSize
    rw [ceilDiv]
    have h := Int.lt_ediv_add_one_mul_self (n + s.pageSize - 1) hp
    rw [add_mul, one_mul] at h
    linarith
  · show (ceilDiv n s.pageSize - 1) * s.pageSize < n
    rw [ceilDiv]
    have h := Int.ediv_mul_le (n + s.pageSize - 1) (ne_of_gt hp)
    rw [sub_mul, one_mul]
    linarith

/-- Witness for C8 at the concrete load of 23 items into the initial state. -/
theorem loadResponse_derived_values_witness :
    (applyLoadResponse 23 initialState).totalItems = 23 :=
  (loadResponse_derived_values initialState 23 (by decide) (by decide)).1

/-- C9: none of the core operations raises an exception — each is a total
function on its whole input type — and every failure mode degrades to the
documented default renderable value: `isAuthenticated` returns false on a
missing credential and on a malformed (unparseable, non-`"1hr"`) expiry;
`getPageNumbers` returns the empty window when there are no pages;
`goToPage` is a no-op out of range; `getAlertField` returns null when no
candidate key matches; `formatDuration` returns `"N/A"` on falsy input; and
`formatDateTime` returns the stringified original input when parsing fails. -/
theorem core_failure_modes_degrade :
    (∀ (parse : String → Option Int) (e : Option String) (now : Int),
      isAuthenticated parse none e now = false) ∧
    (∀ (parse : String → Option Int) (t : Option String) (now : Int),
      isAuthenticated parse t none now = false) ∧
    (∀ (parse : String → Option Int) (t : Option String) (e : String) (now : Int),
      e ≠ "1hr" → parse e = none → isAuthenticated parse t (some e) now = false) ∧
    (∀ total current : Int, total ≤ 0 → getPageNumbers total current = []) ∧
    (∀ (page : Int) (s : ListingState),
      page < 1 ∨ s.totalPages < page ∨ page = s.currentPage → goToPage page s = s) ∧
    (∀ (alert : String → JsVal) (fieldType : String),
      (∀ f ∈ fieldMappings fieldType, jsPresent (alert f) = false) →
      getAlertField alert fieldType = JsVal.null) ∧
    (∀ v : JsVal, jsFalsy v = true → formatDuration v = "N/A") ∧
    (∀ (parse : String → Option Int) (render : Int → String) (s : String),
      s ≠ "" → parse s = none → formatDateTime parse render (.str s) = s) := by
  refine ⟨?_, ?_, ?_, ?_, ?_, ?_, ?_, ?_⟩
  · intro parse e now
    rfl
  · intro parse t now
    cases t with
    | none => rfl
    | some u => simp [isAuthenticated, strFalsy]
  · intro parse t e now h1 h2
    simp [isAuthenticated, h1, h2]
  · intro total current h
    simp only [getPageNumbers]
    rw [← List.length_eq_zero, length_intRange]
    split_ifs <;> omega
  · intro page s h
    exact goToPage_noop h
  · intro alert fieldType hnone
    rw [getAlertField, lookupFirstField_eq_find]
    cases hfind : (fieldMappings fieldType).find? (fun f => jsPresent (alert f)) with
    | none => rfl
    | some f =>
      have hmem := List.mem_of_find?_eq_some hfind
      have hp := List.find?_some hfind
      rw [hnone f hmem] at hp
      cases hp
  · intro v hv
    simp [formatDuration, hv]
  · intro parse render s hne hp
    simp [formatDateTime, jsFalsy, jsToString, hne, hp]

/-- Witness for C9 at concrete inputs: the window for zero total pages is
empty, and navigating to page 99 from the initial state is a no-op. -/
theorem core_failure_modes_degrade_witness :
    getPageNumbers 0 3 = [] ∧ goToPage 99 initialState = initialState :=
  ⟨core_failure_modes_degrade.2.2.2.1 0 3 (by decide),
   core_failure_modes_degrade.2.2.2.2.1 99 initialState (Or.inr (Or.inl (by decide)))⟩
